import Mathlib

/-!
# Shallow embedding of the escalation & capacity-aware staff assignment engine

Embedding of `src/backend/src/services/escalation_service.py` together with the
row shapes it reads from `src/backend/src/models/user.py` and
`src/backend/src/models/session.py`.

Modelling conventions:
* UUID-shaped identifiers are opaque, so they are embedded as `Nat`.
* Timestamps (`datetime.utcnow()`) are embedded as a `now : Nat` argument.
* SQLAlchemy integer columns are embedded as `Int` (Python integers; the
  spec's non-negativity of `current_sessions_count` is then a real claim).
* A database is the pair of its `sessions` and `users` tables (row lists).
  `db.query(T).filter(...).first()` becomes `List.find?` with the same
  predicate; committing a mutated ORM row becomes replacing every row with
  the same primary key.
* The `session_metadata` JSON column is elided: the service only ever writes
  into it (auto-detection bookkeeping, resolution notes) and no control flow
  or claim reads it back.
* Logging calls are elided; the dict results are embedded as `Except`
  values whose error constructors mirror the distinct error strings.
-/

namespace Escalation

/-- Values of the `ChatSession.escalation_status` column:
`none`, `pending`, `assigned`, `resolved`. -/
inductive EscStatus where
  | none
  | pending
  | assigned
  | resolved
deriving DecidableEq, Repr

/-- Values of the `User.supporter_status` column:
`online`, `available`, `busy`, `away`, `offline`. -/
inductive Availability where
  | online
  | available
  | busy
  | away
  | offline
deriving DecidableEq, Repr

/-- Values of the `User.role` column relevant to the engine:
`supporter`, `admin`. -/
inductive Role where
  | supporter
  | admin
deriving DecidableEq, Repr

/-- The escalation-relevant columns of a `chat_sessions` row
(`src/models/session.py`). `session_id` is the primary key. -/
structure ChatSession where
  session_id : Nat
  tenant_id : Nat
  escalation_status : EscStatus
  escalation_reason : Option String
  assigned_user_id : Option Nat
  escalation_requested_at : Option Nat
  escalation_assigned_at : Option Nat
deriving DecidableEq, Repr

/-- The escalation-relevant columns of a `users` row
(`src/models/user.py`). `user_id` is the primary key. -/
structure User where
  user_id : Nat
  tenant_id : Nat
  role : Role
  username : String
  display_name : Option String
  supporter_status : Availability
  max_concurrent_sessions : Int
  current_sessions_count : Int
deriving DecidableEq, Repr

/-- The backing store: the two tables the escalation service touches. -/
structure DB where
  sessions : List ChatSession
  users : List User
deriving DecidableEq, Repr

/-- Embedding of the session query filtering on `session_id == sid` and
`tenant_id == tid`, taking the first match. -/
def querySession (db : DB) (sid tid : Nat) : Option ChatSession :=
  db.sessions.find? (fun s => s.session_id == sid && s.tenant_id == tid)

/-- Committing a mutated session row: every row with the same primary key is
replaced by the new row. -/
def updateSession (db : DB) (s : ChatSession) : DB :=
  { db with sessions := db.sessions.map (fun t => if t.session_id == s.session_id then s else t) }

/-- Committing a mutated user row: every row with the same primary key is
replaced by the new row. -/
def updateUser (db : DB) (u : User) : DB :=
  { db with users := db.users.map (fun t => if t.user_id == u.user_id then u else t) }

/-! ## Auto-escalation detector (`detect_auto_escalation`) -/

/-- Embedding of `EscalationService.DEFAULT_ESCALATION_KEYWORDS`. -/
def DEFAULT_ESCALATION_KEYWORDS : List String :=
  [ "urgent", "emergency", "asap", "immediately", "critical",
    "help", "assistant", "support",
    "angry", "frustrated", "upset", "annoyed", "irritated",
    "unacceptable", "ridiculous", "terrible", "awful",
    "broken", "crash", "error", "not working", "fail",
    "down", "offline", "issue", "problem",
    "manager", "supervisor", "escalate", "escalation",
    "speak to", "talk to", "human", "person" ]

/-- Whether `needle` occurs at the start of `haystack`, character by character. -/
def startsWithChars : List Char → List Char → Bool
  | [], _ => true
  | _ :: _, [] => false
  | a :: as, b :: bs => a == b && startsWithChars as bs

/-- Embedding of the Python substring test (needle in haystack) on character lists. -/
def containsChars (needle : List Char) : List Char → Bool
  | [] => needle.isEmpty
  | b :: bs => startsWithChars needle (b :: bs) || containsChars needle bs

/-- Embedding of the Python lowercase conversion of a string (ASCII-faithful). -/
def lowerChars (s : String) : List Char := s.data.map Char.toLower

/-- Case-insensitive substring match: the lowered keyword occurring inside the
lowered message. -/
def kwMatches (message keyword : String) : Bool :=
  containsChars (lowerChars keyword) (lowerChars message)

/-- Return shape of `detect_auto_escalation`. The reason string of the code,
which interpolates the match count and a comma-join of the first three
detected keywords, is embedded as exactly that interpolated data. -/
structure DetectResult where
  should_escalate : Bool
  detected_keywords : List String
  confidence : ℚ
  reason : Option (Nat × List String)
deriving DecidableEq, Repr

/-- Embedding of `EscalationService.detect_auto_escalation`: scan the default keywords
extended with the custom ones, case-insensitively, over the message. -/
def detect_auto_escalation (message : String) (custom_keywords : Option (List String)) :
    DetectResult :=
  let keywords_to_check := DEFAULT_ESCALATION_KEYWORDS ++ custom_keywords.getD []
  let detected := keywords_to_check.filter (fun k => kwMatches message k)
  let confidence : ℚ := min ((detected.length : ℚ) / 3) 1
  let should_escalate := detected.length > 0
  { should_escalate := should_escalate
    detected_keywords := detected
    confidence := confidence
    reason := if should_escalate then some (detected.length, detected.take 3) else Option.none }

/-! ## Staff directory (`find_available_staff`) -/

/-- Availability filter of `find_available_staff`: supporter role, tenant
match, `supporter_status` either `online` or `available`, and
`current_sessions_count < max_concurrent_sessions`. -/
def availableFilter (tid : Nat) (u : User) : Bool :=
  u.tenant_id == tid && u.role == Role.supporter &&
    (u.supporter_status == Availability.online || u.supporter_status == Availability.available) &&
    u.current_sessions_count < u.max_concurrent_sessions

/-- Embedding of `EscalationService.find_available_staff`: the filtered users ordered
ascending by `current_sessions_count`. -/
def find_available_staff (db : DB) (tid : Nat) : List User :=
  (db.users.filter (availableFilter tid)).mergeSort
    (fun a b => a.current_sessions_count ≤ b.current_sessions_count)

/-- The session row as rewritten by the success path of `assign_user`
(assignee recorded, status set to assigned, assignment timestamp stamped). -/
def assignedSession (s : ChatSession) (uid now : Nat) : ChatSession :=
  { s with
    assigned_user_id := some uid
    escalation_status := EscStatus.assigned
    escalation_assigned_at := some now }

/-! ## Manual/auto assignment (`assign_user`) -/

/-- The distinct error returns of `assign_user`, one per error string. -/
inductive AssignError where
  | sessionNotFound
  | invalidState (status : EscStatus)
  | userNotFound
  | staffUnavailable (status : Availability)
  | staffAtCapacity (cur mx : Int)
deriving DecidableEq, Repr

/-- The success dictionary of `assign_user`. -/
structure AssignOk where
  session_id : Nat
  assigned_user_id : Nat
  escalation_status : EscStatus
  escalation_assigned_at : Nat
  staff_current_sessions : Int
  staff_max_sessions : Int
deriving DecidableEq, Repr

/-- Embedding of the user lookup inside `assign_user`: the query filtering on
`user_id == uid`, `tenant_id == tid` and supporter role, taking the first match. -/
def queryStaff (db : DB) (uid tid : Nat) : Option User :=
  db.users.find? (fun u => u.user_id == uid && u.tenant_id == tid && u.role == Role.supporter)

/-- Embedding of `EscalationService.assign_user`: guard chain (session found, status in
the set of pending and assigned, staff found in-tenant with role supporter, staff
online/available, staff below capacity), then assign the session and
increment the staff counter, both committed. -/
def assign_user (db : DB) (session_id tenant_id user_id now : Nat) :
    Except AssignError AssignOk × DB :=
  match querySession db session_id tenant_id with
  | Option.none => (.error .sessionNotFound, db)
  | some session =>
    if !(session.escalation_status == .pending || session.escalation_status == .assigned) then
      (.error (.invalidState session.escalation_status), db)
    else
      match queryStaff db user_id tenant_id with
      | Option.none => (.error .userNotFound, db)
      | some user =>
        if !(user.supporter_status == .online || user.supporter_status == .available) then
          (.error (.staffUnavailable user.supporter_status), db)
        else if user.current_sessions_count ≥ user.max_concurrent_sessions then
          (.error (.staffAtCapacity user.current_sessions_count user.max_concurrent_sessions), db)
        else
          let session1 := assignedSession session user_id now
          let user1 := { user with current_sessions_count := user.current_sessions_count + 1 }
          (.ok { session_id := session_id
                 assigned_user_id := user_id
                 escalation_status := session1.escalation_status
                 escalation_assigned_at := now
                 staff_current_sessions := user1.current_sessions_count
                 staff_max_sessions := user1.max_concurrent_sessions },
           updateUser (updateSession db session1) user1)

/-! ## Resolution (`resolve_escalation`) -/

/-- The distinct error returns of `resolve_escalation`. -/
inductive ResolveError where
  | sessionNotFound
  | notEscalated
deriving DecidableEq, Repr

/-- The success dictionary of `resolve_escalation`. -/
structure ResolveOk where
  session_id : Nat
  escalation_status : EscStatus
deriving DecidableEq, Repr

/-- Embedding of `EscalationService.resolve_escalation`: if the session is
found and its status is not `none`, decrement the counter of the assigned
user (when the session records an assignee, that user row is found by
`user_id` alone, and its counter is positive), then mark the session
`resolved`. The resolution notes only go into the elided metadata column;
note that the code does not clear `assigned_user_id`. -/
def resolve_escalation (db : DB) (session_id tenant_id : Nat) :
    Except ResolveError ResolveOk × DB :=
  match querySession db session_id tenant_id with
  | Option.none => (.error .sessionNotFound, db)
  | some session =>
    if session.escalation_status == EscStatus.none then
      (.error .notEscalated, db)
    else
      let db1 :=
        match session.assigned_user_id with
        | Option.none => db
        | some auid =>
          match db.users.find? (fun u => u.user_id == auid) with
          | Option.none => db
          | some assigned_user =>
            if assigned_user.current_sessions_count > 0 then
              updateUser db { assigned_user with
                current_sessions_count := assigned_user.current_sessions_count - 1 }
            else db
      let session1 := { session with escalation_status := EscStatus.resolved }
      (.ok { session_id := session_id, escalation_status := EscStatus.resolved },
       updateSession db1 session1)

/-- The session row as rewritten by the success path of `escalate_session`
(status set to pending, reason and request timestamp stamped). -/
def pendSession (s : ChatSession) (reason : String) (now : Nat) : ChatSession :=
  { s with
    escalation_status := EscStatus.pending
    escalation_reason := some reason
    escalation_requested_at := some now }

/-! ## Escalation (`escalate_session`) -/

/-- The distinct error returns of `escalate_session`. -/
inductive EscalateError where
  | sessionNotFound
  | alreadyEscalated (status : EscStatus)
deriving DecidableEq, Repr

/-- The success dictionary of `escalate_session`. The timestamp and status
fields are read back from the refreshed session row, as in the code. -/
structure EscalateOk where
  session_id : Nat
  escalation_status : EscStatus
  escalation_requested_at : Option Nat
  auto_assigned : Bool
  assigned_user_id : Option Nat
  assigned_user_name : Option String
deriving DecidableEq, Repr

/-- Embedding of `EscalationService.escalate_session`: look the session up by
`(session_id, tenant_id)`; fail if absent or already escalated; otherwise set
it `pending`, stamp `escalation_requested_at`, commit, then best-effort
auto-assign to the head of `find_available_staff` (the least-loaded
candidate). Auto-assign failure does not fail the escalation. The
`auto_detected`/`keywords` arguments only feed the elided metadata column. -/
def escalate_session (db : DB) (session_id tenant_id : Nat) (reason : String)
    (auto_detected : Bool) (keywords : Option (List String)) (now : Nat) :
    Except EscalateError EscalateOk × DB :=
  match querySession db session_id tenant_id with
  | Option.none => (.error .sessionNotFound, db)
  | some session =>
    if !(session.escalation_status == EscStatus.none) then
      (.error (.alreadyEscalated session.escalation_status), db)
    else
      let session1 := pendSession session reason now
      let db1 := updateSession db session1
      let available_staff := find_available_staff db1 tenant_id
      match available_staff with
      | [] =>
        let final := (querySession db1 session_id tenant_id).getD session1
        (.ok { session_id := session_id
               escalation_status := final.escalation_status
               escalation_requested_at := final.escalation_requested_at
               auto_assigned := false
               assigned_user_id := Option.none
               assigned_user_name := Option.none },
         db1)
      | best_supporter :: _ =>
        let (assign_result, db2) :=
          assign_user db1 session_id tenant_id best_supporter.user_id now
        match assign_result with
        | .ok _ =>
          let final := (querySession db2 session_id tenant_id).getD session1
          (.ok { session_id := session_id
                 escalation_status := final.escalation_status
                 escalation_requested_at := final.escalation_requested_at
                 auto_assigned := true
                 assigned_user_id := some best_supporter.user_id
                 assigned_user_name :=
                   some (best_supporter.display_name.getD best_supporter.username) },
           db2)
        | .error _ =>
          let final := (querySession db2 session_id tenant_id).getD session1
          (.ok { session_id := session_id
                 escalation_status := final.escalation_status
                 escalation_requested_at := final.escalation_requested_at
                 auto_assigned := false
                 assigned_user_id := Option.none
                 assigned_user_name := Option.none },
           db2)

/-! ## Derived forms used in the statements -/

/-- Number of sessions currently assigned to the given staff member: the sum,
over sessions, of one unit per session in assigned status pointing at them. -/
def countAssignedTo (db : DB) (uid : Nat) : Nat :=
  (db.sessions.filter
    (fun s => s.assigned_user_id == some uid && s.escalation_status == EscStatus.assigned)).length

/-- The load-bound invariant of one staff row:
`0 ≤ current_sessions_count ≤ max_concurrent_sessions`. -/
def UserInRange (u : User) : Prop :=
  0 ≤ u.current_sessions_count ∧ u.current_sessions_count ≤ u.max_concurrent_sessions

instance (u : User) : Decidable (UserInRange u) := by
  unfold UserInRange; infer_instance

/-- The load-bound invariant over the whole store. -/
def LoadInv (db : DB) : Prop := ∀ u ∈ db.users, UserInRange u

instance (db : DB) : Decidable (LoadInv db) := by
  unfold LoadInv; exact List.decidableBAll _ _

/-! Decomposition of the capacity claim of `assign_user` into its read phase
and its write phase. The read phase is `queryStaff` (the row snapshot a
transaction loads); the check below is the pair of guards the code evaluates
on that snapshot; the write phase commits the incremented counter computed
from that same snapshot. This mirrors the code exactly: the guards read
`user.current_sessions_count` from the queried row, and the later
`user.current_sessions_count += 1` writes back snapshot-plus-one, rather than
issuing a conditional increment against the store. -/

/-- Guards that the code evaluates on the user-row snapshot: availability in
online or available, and counter strictly below the ceiling. -/
def claimCheck (u : User) : Bool :=
  (u.supporter_status == Availability.online || u.supporter_status == Availability.available) &&
    !(u.current_sessions_count ≥ u.max_concurrent_sessions)

/-- Write phase of the claim: commit counter := snapshot counter + 1 for the
snapshot row (the value is computed from the snapshot, not from the store). -/
def claimWrite (db : DB) (snapshot : User) : DB :=
  updateUser db { snapshot with current_sessions_count := snapshot.current_sessions_count + 1 }

/-! ## Concrete fixtures for the claims -/

/-- Shorthand for building a session row in a given escalation state. -/
def mkSession (sid tid : Nat) (st : EscStatus) (auid : Option Nat) : ChatSession :=
  { session_id := sid, tenant_id := tid, escalation_status := st,
    escalation_reason := Option.none, assigned_user_id := auid,
    escalation_requested_at := some 0, escalation_assigned_at := some 0 }

/-- Shorthand for building a supporter row. -/
def mkSupporter (uid tid : Nat) (av : Availability) (mx cur : Int) : User :=
  { user_id := uid, tenant_id := tid, role := Role.supporter, username := "u",
    display_name := Option.none, supporter_status := av,
    max_concurrent_sessions := mx, current_sessions_count := cur }

/-- Fixture for the double-resolve claim: staff 10 is assigned to sessions 1
and 2, with counter 2. -/
def dbDouble : DB :=
  { sessions := [mkSession 1 1 EscStatus.assigned (some 10),
                 mkSession 2 1 EscStatus.assigned (some 10)],
    users := [mkSupporter 10 1 Availability.online 5 2] }

/-- Fixture for the resolve-clears-assignee claim: staff 10 assigned to
session 1, counter 1. -/
def dbClear : DB :=
  { sessions := [mkSession 1 1 EscStatus.assigned (some 10)],
    users := [mkSupporter 10 1 Availability.online 5 1] }

/-- Fixture for the reassignment claim: session 1 assigned to staff 10
(counter 1); staff 11 idle. -/
def dbReassign : DB :=
  { sessions := [mkSession 1 1 EscStatus.assigned (some 10)],
    users := [mkSupporter 10 1 Availability.online 5 1,
              mkSupporter 11 1 Availability.online 5 0] }

/-- Fixture for the interleaving claim: staff 20 has a single free slot
(max 1, counter 0); sessions 1 and 2 are both pending. -/
def dbRace : DB :=
  { sessions := [mkSession 1 1 EscStatus.pending Option.none,
                 mkSession 2 1 EscStatus.pending Option.none],
    users := [mkSupporter 20 1 Availability.online 1 0] }

/-- Snapshot of staff 20 that both racing transactions read from `dbRace`
before either commits. -/
def raceSnapshot : User := mkSupporter 20 1 Availability.online 1 0

/-- Final store of the interleaving: transaction one runs the full
`assign_user` for session 1; transaction two, which had already passed its
guards on the stale `raceSnapshot`, then commits its session-2 assignment and
its snapshot-computed counter write. -/
def raceFinal : DB :=
  claimWrite
    (updateSession (assign_user dbRace 1 1 20 5).2 (assignedSession (mkSession 2 1 EscStatus.pending Option.none) 20 5))
    raceSnapshot

/-- Fixture for the tenant-scoping claim: the session of tenant 1 records
assignee 7, but user 7 belongs to tenant 2. -/
def dbCross : DB :=
  { sessions := [mkSession 1 1 EscStatus.assigned (some 7)],
    users := [{ user_id := 7, tenant_id := 2, role := Role.admin, username := "other",
                display_name := Option.none, supporter_status := Availability.offline,
                max_concurrent_sessions := 5, current_sessions_count := 1 }] }

/-- Fixture for the witnesses: tenant 1 with one free supporter (10), one full
supporter (11), a fresh session 1 and an assigned session 2. -/
def dbMain : DB :=
  { sessions := [mkSession 1 1 EscStatus.none Option.none,
                 mkSession 2 1 EscStatus.assigned (some 11)],
    users := [mkSupporter 10 1 Availability.online 2 0,
              mkSupporter 11 1 Availability.online 1 1] }

/-- Fixture for the tenant-scoping witness: tenants 1 and 2 each own one
session and one supporter. -/
def dbScope : DB :=
  { sessions := [mkSession 1 1 EscStatus.pending Option.none,
                 mkSession 9 2 EscStatus.pending Option.none],
    users := [mkSupporter 10 1 Availability.online 5 0,
              mkSupporter 99 2 Availability.online 5 0] }

deriving instance DecidableEq for Except

/-! ## Theorems -/

/-- C1: the claim says a second `resolve_escalation` on an already resolved
session is stopped by the status check and never decrements again. On the
code this fails: the guard only rejects status `none`, and the assignee field
is never cleared, so with staff 10 assigned to two sessions (counter 2),
resolving session 1 twice decrements the counter twice (2 to 1 to 0), the
second call also reporting success. -/
theorem claim1_resolve_retry_decrements_twice :
    (resolve_escalation dbDouble 1 1).1 = .ok ⟨1, EscStatus.resolved⟩ ∧
    ((resolve_escalation dbDouble 1 1).2.users.find? (fun u => u.user_id == 10)).map
        User.current_sessions_count = some 1 ∧
    (resolve_escalation (resolve_escalation dbDouble 1 1).2 1 1).1 =
      .ok ⟨1, EscStatus.resolved⟩ ∧
    ((resolve_escalation (resolve_escalation dbDouble 1 1).2 1 1).2.users.find?
        (fun u => u.user_id == 10)).map User.current_sessions_count = some 0 := by
  decide

/-- C2: the claim says a successful `resolve_escalation` clears the session
assignee field while setting status resolved (keeping the invariant that
`assigned_user_id` is non-null iff the status is assigned). On the code this
fails: after resolving the assigned session 1, the stored row has status
resolved with `assigned_user_id` still pointing at staff 10. -/
theorem claim2_resolve_keeps_assigned_user_id :
    (resolve_escalation dbClear 1 1).1 = .ok ⟨1, EscStatus.resolved⟩ ∧
    (querySession (resolve_escalation dbClear 1 1).2 1 1).map
        (fun s => (s.escalation_status, s.assigned_user_id)) =
      some (EscStatus.resolved, some 10) := by
  decide

/-- C3: the claim says reassigning an assigned session from staff 10 to staff
11 decrements the counter of 10 and increments the counter of 11. On the code
this fails: `assign_user` never releases the previous claim, so after the
reassignment staff 10 still has counter 1 while zero sessions are assigned to
them, and staff 11 has counter 1 with one session. -/
theorem claim3_reassign_does_not_release_old_claim :
    (assign_user dbReassign 1 1 11 7).1 = .ok ⟨1, 11, EscStatus.assigned, 7, 1, 5⟩ ∧
    ((assign_user dbReassign 1 1 11 7).2.users.find? (fun u => u.user_id == 10)).map
        User.current_sessions_count = some 1 ∧
    countAssignedTo (assign_user dbReassign 1 1 11 7).2 10 = 0 ∧
    ((assign_user dbReassign 1 1 11 7).2.users.find? (fun u => u.user_id == 11)).map
        User.current_sessions_count = some 1 ∧
    countAssignedTo (assign_user dbReassign 1 1 11 7).2 11 = 1 ∧
    (querySession (assign_user dbReassign 1 1 11 7).2 1 1).map
        (fun s => (s.escalation_status, s.assigned_user_id)) =
      some (EscStatus.assigned, some 11) := by
  decide

/-- C5: the claim says the capacity claim is a single atomic conditional
update, so two concurrent escalations can never both claim the last free
slot. On the code this fails: the guards and the increment are a separate
read and write of the queried row. With staff 20 at max 1 and counter 0, a
second transaction that passed its guards on the stale snapshot before the
first committed still writes snapshot-plus-one, so both sessions end up
assigned to the one free slot (and the stored counter, 1, undercounts the two
assigned sessions). -/
theorem claim5_read_then_write_double_claim :
    claimCheck raceSnapshot = true ∧
    (assign_user dbRace 1 1 20 5).1 = .ok ⟨1, 20, EscStatus.assigned, 5, 1, 1⟩ ∧
    countAssignedTo raceFinal 20 = 2 ∧
    ((raceFinal.users.find? (fun u => u.user_id == 20)).map
        (fun u => (u.current_sessions_count, u.max_concurrent_sessions))) = some (1, 1) := by
  decide

/-- C6 (counterexample): the claim says every staff lookup of the escalation
operations is restricted to the tenant of the call, in particular the one
inside `resolve_escalation`. On the code this fails: that lookup filters on
`user_id` alone, so resolving the tenant-1 session whose recorded assignee is
user 7 of tenant 2 mutates (decrements) the tenant-2 row. -/
theorem claim6_resolve_lookup_crosses_tenant :
    (resolve_escalation dbCross 1 1).1 = .ok ⟨1, EscStatus.resolved⟩ ∧
    ((dbCross.users.find? (fun u => u.user_id == 7)).map
        (fun u => (u.tenant_id, u.current_sessions_count))) = some (2, 1) ∧
    (((resolve_escalation dbCross 1 1).2.users.find? (fun u => u.user_id == 7)).map
        (fun u => (u.tenant_id, u.current_sessions_count))) = some (2, 0) := by
  decide

/-- Helper: a member of a key-replaced table is the replacement or an
original row. -/
theorem mem_replaced {α : Type} (key : α → Nat) (l : List α) (x' x : α)
    (hx : x ∈ l.map (fun t => if key t == key x' then x' else t)) :
    x = x' ∨ x ∈ l := by
  obtain ⟨t, ht, hxt⟩ := List.mem_map.mp hx
  by_cases hk : key t = key x'
  · left; rw [← hxt]; simp [hk]
  · right; rw [← hxt]; simp only [beq_iff_eq, hk, if_false]; exact ht

/-- Helper: replacing rows by primary key and then querying with a predicate
that pins that key and accepts the replacement returns the replacement. -/
theorem find_replaced {α : Type} (key : α → Nat) (p : α → Bool) (l : List α) (x' : α)
    (hkey : ∀ y, p y = true → key y = key x')
    (hp : p x' = true)
    (hex : ∃ y ∈ l, key y = key x') :
    (l.map (fun t => if key t == key x' then x' else t)).find? p = some x' := by
  induction l with
  | nil => simp at hex
  | cons h t ih =>
    obtain ⟨y, hy, hky⟩ := hex
    by_cases hkh : key h = key x'
    · have hrep : (if key h == key x' then x' else h) = x' := by simp [hkh]
      simp only [List.map_cons, hrep, List.find?_cons_of_pos _ hp]
    · have hph : p h = false := by
        cases hh : p h
        · rfl
        · exact absurd (hkey h hh) hkh
      have hrep : (if key h == key x' then x' else h) = h := by
        simp only [beq_iff_eq, hkh, if_false]
      simp only [List.map_cons, hrep]
      rw [List.find?_cons_of_neg _ (by simp [hph])]
      apply ih
      rcases List.mem_cons.mp hy with rfl | hy'
      · exact absurd hky hkh
      · exact ⟨y, hy', hky⟩

/-- Helper: the load-bound invariant survives a user-row commit whose new row
is itself in range. -/
theorem loadInv_updateUser {db : DB} {u : User} (h : LoadInv db) (hu : UserInRange u) :
    LoadInv (updateUser db u) := by
  intro x hx
  rcases mem_replaced User.user_id db.users u x hx with rfl | hx'
  · exact hu
  · exact h x hx'

/-- Helper: session-row commits do not touch the users table. -/
theorem loadInv_updateSession {db : DB} {s : ChatSession} (h : LoadInv db) :
    LoadInv (updateSession db s) := h

/-- Helper: `assign_user` preserves the load-bound invariant; the only counter
write is guarded by the strict capacity check. -/
theorem loadInv_assign_user (db : DB) (sid tid uid now : Nat) (h : LoadInv db) :
    LoadInv (assign_user db sid tid uid now).2 := by
  unfold assign_user
  cases hq : querySession db sid tid with
  | none => exact h
  | some session =>
    dsimp only
    by_cases hst : (!(session.escalation_status == EscStatus.pending ||
        session.escalation_status == EscStatus.assigned)) = true
    · rw [if_pos hst]; exact h
    · rw [if_neg hst]
      cases hu : queryStaff db uid tid with
      | none => exact h
      | some user =>
        dsimp only
        by_cases hav : (!(user.supporter_status == Availability.online ||
            user.supporter_status == Availability.available)) = true
        · rw [if_pos hav]; exact h
        · rw [if_neg hav]
          by_cases hcap : user.current_sessions_count ≥ user.max_concurrent_sessions
          · rw [if_pos hcap]; exact h
          · rw [if_neg hcap]
            refine loadInv_updateUser (loadInv_updateSession h) ?_
            obtain ⟨hr1, hr2⟩ := h user (List.mem_of_find?_eq_some hu)
            constructor
            · show (0 : Int) ≤ user.current_sessions_count + 1
              omega
            · show user.current_sessions_count + 1 ≤ user.max_concurrent_sessions
              omega

/-- Helper: `resolve_escalation` preserves the load-bound invariant; the only
counter write is guarded by positivity. -/
theorem loadInv_resolve_escalation (db : DB) (sid tid : Nat) (h : LoadInv db) :
    LoadInv (resolve_escalation db sid tid).2 := by
  unfold resolve_escalation
  cases hq : querySession db sid tid with
  | none => exact h
  | some session =>
    dsimp only
    by_cases hst : (session.escalation_status == EscStatus.none) = true
    · rw [if_pos hst]; exact h
    · rw [if_neg hst]
      apply loadInv_updateSession
      cases hau : session.assigned_user_id with
      | none => exact h
      | some auid =>
        dsimp only
        cases hfu : db.users.find? (fun u => u.user_id == auid) with
        | none => exact h
        | some au =>
          dsimp only
          by_cases hpos : au.current_sessions_count > 0
          · rw [if_pos hpos]
            refine loadInv_updateUser h ?_
            obtain ⟨hr1, hr2⟩ := h au (List.mem_of_find?_eq_some hfu)
            constructor
            · show (0 : Int) ≤ au.current_sessions_count - 1
              omega
            · show au.current_sessions_count - 1 ≤ au.max_concurrent_sessions
              omega
          · rw [if_neg hpos]; exact h

/-- Helper: `escalate_session` preserves the load-bound invariant; it only
writes session rows itself and delegates counter writes to `assign_user`. -/
theorem loadInv_escalate_session (db : DB) (sid tid : Nat) (reason : String)
    (ad : Bool) (kws : Option (List String)) (now : Nat) (h : LoadInv db) :
    LoadInv (escalate_session db sid tid reason ad kws now).2 := by
  unfold escalate_session
  cases hq : querySession db sid tid with
  | none => exact h
  | some session =>
    dsimp only
    by_cases hst : (!(session.escalation_status == EscStatus.none)) = true
    · rw [if_pos hst]; exact h
    · rw [if_neg hst]
      have h1 : LoadInv (updateSession db (pendSession session reason now)) :=
        loadInv_updateSession h
      cases hstaff :
          find_available_staff (updateSession db (pendSession session reason now)) tid with
      | nil => exact h1
      | cons best rest =>
        dsimp only
        have h2 := loadInv_assign_user
          (updateSession db (pendSession session reason now)) sid tid best.user_id now h1
        rcases hr : assign_user (updateSession db (pendSession session reason now))
            sid tid best.user_id now with ⟨res, db2⟩
        rw [hr] at h2
        cases res <;> exact h2

/-- Helper: what a successful session query says about the row it returns. -/
theorem querySession_props {db : DB} {sid tid : Nat} {s : ChatSession}
    (h : querySession db sid tid = some s) :
    s ∈ db.sessions ∧ s.session_id = sid ∧ s.tenant_id = tid := by
  refine ⟨List.mem_of_find?_eq_some h, ?_, ?_⟩ <;>
  · have hp := List.find?_some h
    simp only [Bool.and_eq_true, beq_iff_eq] at hp
    tauto

/-- Helper: what a successful staff query says about the row it returns. -/
theorem queryStaff_props {db : DB} {uid tid : Nat} {u : User}
    (h : queryStaff db uid tid = some u) :
    u ∈ db.users ∧ u.user_id = uid ∧ u.tenant_id = tid ∧ u.role = Role.supporter := by
  refine ⟨List.mem_of_find?_eq_some h, ?_, ?_, ?_⟩ <;>
  · have hp := List.find?_some h
    simp only [Bool.and_eq_true, beq_iff_eq] at hp
    tauto

/-- Helper: committing a user row does not change what session queries see. -/
theorem querySession_updateUser (db : DB) (u : User) (sid tid : Nat) :
    querySession (updateUser db u) sid tid = querySession db sid tid := rfl

/-- Helper: after committing a session row that keeps the primary key and the
tenant of a previously queried row, the same query returns the new row. -/
theorem querySession_updateSession {db : DB} {sid tid : Nat} {s : ChatSession}
    (s' : ChatSession) (h : querySession db sid tid = some s)
    (hid : s'.session_id = s.session_id) (htid : s'.tenant_id = tid) :
    querySession (updateSession db s') sid tid = some s' := by
  obtain ⟨hmem, hsid, hstid⟩ := querySession_props h
  unfold querySession updateSession
  apply find_replaced ChatSession.session_id
  · intro y hy
    simp only [Bool.and_eq_true, beq_iff_eq] at hy
    rw [hid, hsid]
    exact hy.1
  · simp only [Bool.and_eq_true, beq_iff_eq, hid, hsid, htid, and_self, decide_eq_true_eq]
  · exact ⟨s, hmem, by rw [hid, hsid]⟩

/-- Helper: after committing a user row, looking that user up by primary key
returns the new row, provided some row with that key existed. -/
theorem findUser_after_update {db : DB} {u' : User} {uid : Nat}
    (hex : ∃ y ∈ db.users, y.user_id = u'.user_id) (hid : u'.user_id = uid) :
    (updateUser db u').users.find? (fun x => x.user_id == uid) = some u' := by
  unfold updateUser
  apply find_replaced User.user_id
  · intro y hy
    simp only [beq_iff_eq] at hy
    rw [hid]
    exact hy
  · simp only [beq_iff_eq, hid]
  · exact hex

/-- C4: after any escalation-service operation on a store where every staff
member satisfies the load bound (counter between zero and the ceiling), every
staff member still satisfies it: `assign_user` only increments under the
strict capacity check and `resolve_escalation` only decrements under the
positivity check, and `escalate_session` delegates all counter writes to
`assign_user`. -/
theorem claim4_load_bound_preserved (db : DB) (sid tid uid now : Nat) (reason : String)
    (ad : Bool) (kws : Option (List String)) (h : LoadInv db) :
    LoadInv (escalate_session db sid tid reason ad kws now).2 ∧
    LoadInv (assign_user db sid tid uid now).2 ∧
    LoadInv (resolve_escalation db sid tid).2 :=
  ⟨loadInv_escalate_session db sid tid reason ad kws now h,
   loadInv_assign_user db sid tid uid now h,
   loadInv_resolve_escalation db sid tid h⟩

/-- Witness for C4 at a concrete store: the invariant holds before and after
the three operations on the main fixture. -/
theorem claim4_load_bound_preserved_witness :
    LoadInv dbMain ∧
    (LoadInv (escalate_session dbMain 1 1 "w" false Option.none 3).2 ∧
     LoadInv (assign_user dbMain 1 1 10 3).2 ∧
     LoadInv (resolve_escalation dbMain 1 1).2) :=
  ⟨by decide, claim4_load_bound_preserved dbMain 1 1 10 3 "w" false Option.none (by decide)⟩

/-- C8: on a session that exists for the tenant, `assign_user` fails with the
invalid-state error unless the status is pending or assigned; with the target
staff row in hand it fails with the unavailable error when the availability is
neither online nor available, fails with the at-capacity error when the
counter has reached the ceiling, and otherwise succeeds — incrementing the
staff counter by one and storing the session as assigned to the target with
the assignment timestamp stamped. -/
theorem claim8_assign_guards (db : DB) (sid tid uid now : Nat) (s : ChatSession)
    (hs : querySession db sid tid = some s) :
    (s.escalation_status ≠ EscStatus.pending ∧ s.escalation_status ≠ EscStatus.assigned →
      assign_user db sid tid uid now = (.error (.invalidState s.escalation_status), db)) ∧
    (∀ u, queryStaff db uid tid = some u →
      (s.escalation_status = EscStatus.pending ∨ s.escalation_status = EscStatus.assigned) →
      ((u.supporter_status ≠ Availability.online ∧ u.supporter_status ≠ Availability.available →
         assign_user db sid tid uid now = (.error (.staffUnavailable u.supporter_status), db)) ∧
       ((u.supporter_status = Availability.online ∨ u.supporter_status = Availability.available) →
         u.max_concurrent_sessions ≤ u.current_sessions_count →
         assign_user db sid tid uid now =
           (.error (.staffAtCapacity u.current_sessions_count u.max_concurrent_sessions), db)) ∧
       ((u.supporter_status = Availability.online ∨ u.supporter_status = Availability.available) →
         u.current_sessions_count < u.max_concurrent_sessions →
         (assign_user db sid tid uid now).1 =
           .ok ⟨sid, uid, EscStatus.assigned, now, u.current_sessions_count + 1,
                u.max_concurrent_sessions⟩ ∧
         querySession (assign_user db sid tid uid now).2 sid tid =
           some (assignedSession s uid now) ∧
         (assignedSession s uid now).escalation_status = EscStatus.assigned ∧
         (assignedSession s uid now).assigned_user_id = some uid ∧
         (assignedSession s uid now).escalation_assigned_at = some now ∧
         (assign_user db sid tid uid now).2.users.find? (fun x => x.user_id == uid) =
           some { u with current_sessions_count := u.current_sessions_count + 1 }))) := by
  constructor
  · rintro ⟨h1, h2⟩
    have hcond : (!(s.escalation_status == EscStatus.pending ||
        s.escalation_status == EscStatus.assigned)) = true := by
      simp [h1, h2]
    unfold assign_user
    rw [hs]
    dsimp only
    rw [if_pos hcond]
  · intro u hu hstat
    have hcond : ¬ ((!(s.escalation_status == EscStatus.pending ||
        s.escalation_status == EscStatus.assigned)) = true) := by
      rcases hstat with h | h <;> simp [h]
    refine ⟨?_, ?_, ?_⟩
    · rintro ⟨h1, h2⟩
      have hav : (!(u.supporter_status == Availability.online ||
          u.supporter_status == Availability.available)) = true := by
        simp [h1, h2]
      unfold assign_user
      rw [hs]
      dsimp only
      rw [if_neg hcond, hu]
      dsimp only
      rw [if_pos hav]
    · intro havail hcap
      have hav : ¬ ((!(u.supporter_status == Availability.online ||
          u.supporter_status == Availability.available)) = true) := by
        rcases havail with h | h <;> simp [h]
      unfold assign_user
      rw [hs]
      dsimp only
      rw [if_neg hcond, hu]
      dsimp only
      rw [if_neg hav, if_pos (by omega : u.current_sessions_count ≥ u.max_concurrent_sessions)]
    · intro havail hcap
      have hav : ¬ ((!(u.supporter_status == Availability.online ||
          u.supporter_status == Availability.available)) = true) := by
        rcases havail with h | h <;> simp [h]
      have hassign : assign_user db sid tid uid now =
          (.ok ⟨sid, uid, EscStatus.assigned, now, u.current_sessions_count + 1,
                u.max_concurrent_sessions⟩,
           updateUser (updateSession db (assignedSession s uid now))
             { u with current_sessions_count := u.current_sessions_count + 1 }) := by
        unfold assign_user
        rw [hs]
        dsimp only
        rw [if_neg hcond, hu]
        dsimp only
        rw [if_neg hav, if_neg (by omega : ¬ u.current_sessions_count ≥ u.max_concurrent_sessions)]
        rfl
      rw [hassign]
      obtain ⟨humem, huid, hutid, hurole⟩ := queryStaff_props hu
      refine ⟨rfl, ?_, rfl, rfl, rfl, ?_⟩
      · rw [querySession_updateUser]
        exact querySession_updateSession (assignedSession s uid now) hs rfl
          (querySession_props hs).2.2
      · exact findUser_after_update ⟨u, humem, huid.symm ▸ rfl⟩ huid

/-- Witness for C8: on the main fixture, assigning the free supporter 10 to
the already escalated session 2 takes the success branch and reports the
incremented counter. -/
theorem claim8_assign_guards_witness :
    querySession dbMain 2 1 = some (mkSession 2 1 EscStatus.assigned (some 11)) ∧
    queryStaff dbMain 10 1 = some (mkSupporter 10 1 Availability.online 2 0) ∧
    (assign_user dbMain 2 1 10 5).1 =
      .ok ⟨2, 10, EscStatus.assigned, 5, 1, 2⟩ := by
  refine ⟨by decide, by decide, ?_⟩
  exact (((claim8_assign_guards dbMain 2 1 10 5 (mkSession 2 1 EscStatus.assigned (some 11))
      (by decide)).2 (mkSupporter 10 1 Availability.online 2 0) (by decide)
      (Or.inr rfl)).2.2 (Or.inl rfl) (by decide)).1

/-- Helper: every error return of `assign_user` leaves the store untouched. -/
theorem assign_user_error_db {db : DB} {sid tid uid now : Nat} {e : AssignError} {db' : DB}
    (h : assign_user db sid tid uid now = (.error e, db')) : db' = db := by
  unfold assign_user at h
  cases hq : querySession db sid tid <;> rw [hq] at h <;> dsimp only at h
  · simp only [Prod.mk.injEq] at h
    exact h.2.symm
  · rename_i s
    by_cases hst : (!(s.escalation_status == EscStatus.pending ||
        s.escalation_status == EscStatus.assigned)) = true
    · rw [if_pos hst] at h
      simp only [Prod.mk.injEq] at h
      exact h.2.symm
    · rw [if_neg hst] at h
      cases hu : queryStaff db uid tid <;> rw [hu] at h <;> dsimp only at h
      · simp only [Prod.mk.injEq] at h
        exact h.2.symm
      · rename_i u
        by_cases hav : (!(u.supporter_status == Availability.online ||
            u.supporter_status == Availability.available)) = true
        · rw [if_pos hav] at h
          simp only [Prod.mk.injEq] at h
          exact h.2.symm
        · rw [if_neg hav] at h
          by_cases hcap : u.current_sessions_count ≥ u.max_concurrent_sessions
          · rw [if_pos hcap] at h
            simp only [Prod.mk.injEq] at h
            exact h.2.symm
          · rw [if_neg hcap] at h
            simp only [Prod.mk.injEq] at h
            exact absurd h.1 (by simp)

/-- Helper: inversion of a successful `assign_user`: the session and staff
queries succeeded, every guard passed, and the final store is the two-row
commit built from the queried rows. -/
theorem assign_user_ok_post {db : DB} {sid tid uid now : Nat} {r : AssignOk} {db' : DB}
    (h : assign_user db sid tid uid now = (.ok r, db')) :
    ∃ s u, querySession db sid tid = some s ∧ queryStaff db uid tid = some u ∧
      r = ⟨sid, uid, EscStatus.assigned, now, u.current_sessions_count + 1,
           u.max_concurrent_sessions⟩ ∧
      db' = updateUser (updateSession db (assignedSession s uid now))
        { u with current_sessions_count := u.current_sessions_count + 1 } := by
  unfold assign_user at h
  cases hq : querySession db sid tid <;> rw [hq] at h <;> dsimp only at h
  · exact absurd (congrArg Prod.fst h) (by simp)
  · rename_i s
    by_cases hst : (!(s.escalation_status == EscStatus.pending ||
        s.escalation_status == EscStatus.assigned)) = true
    · rw [if_pos hst] at h
      exact absurd (congrArg Prod.fst h) (by simp)
    · rw [if_neg hst] at h
      cases hu : queryStaff db uid tid <;> rw [hu] at h <;> dsimp only at h
      · exact absurd (congrArg Prod.fst h) (by simp)
      · rename_i u
        by_cases hav : (!(u.supporter_status == Availability.online ||
            u.supporter_status == Availability.available)) = true
        · rw [if_pos hav] at h
          exact absurd (congrArg Prod.fst h) (by simp)
        · rw [if_neg hav] at h
          by_cases hcap : u.current_sessions_count ≥ u.max_concurrent_sessions
          · rw [if_pos hcap] at h
            exact absurd (congrArg Prod.fst h) (by simp)
          · rw [if_neg hcap] at h
            simp only [Prod.mk.injEq, Except.ok.injEq] at h
            refine ⟨s, u, rfl, rfl, ?_, h.2.symm⟩
            rw [← h.1]
            rfl

/-- C7: `escalate_session` fails with the not-found error when no session
matches the id and tenant, fails with the already-escalated error when the
status is not `none`, and otherwise always reports success with the request
timestamp stamped, whatever the staff situation; when no candidate staff
member is available the stored session remains pending and the call still
reports success with no assignee. -/
theorem claim7_escalate_guards (db : DB) (sid tid now : Nat) (reason : String)
    (ad : Bool) (kws : Option (List String)) :
    (querySession db sid tid = Option.none →
      escalate_session db sid tid reason ad kws now = (.error .sessionNotFound, db)) ∧
    (∀ s, querySession db sid tid = some s → s.escalation_status ≠ EscStatus.none →
      escalate_session db sid tid reason ad kws now =
        (.error (.alreadyEscalated s.escalation_status), db)) ∧
    (∀ s, querySession db sid tid = some s → s.escalation_status = EscStatus.none →
      (∃ ok : EscalateOk, (escalate_session db sid tid reason ad kws now).1 = .ok ok ∧
        ok.escalation_requested_at = some now) ∧
      (find_available_staff (updateSession db (pendSession s reason now)) tid = [] →
        escalate_session db sid tid reason ad kws now =
          (.ok ⟨sid, EscStatus.pending, some now, false, Option.none, Option.none⟩,
           updateSession db (pendSession s reason now)))) := by
  refine ⟨?_, ?_, ?_⟩
  · intro hq
    unfold escalate_session
    rw [hq]
  · intro s hs hne
    have hcond : (!(s.escalation_status == EscStatus.none)) = true := by simp [hne]
    unfold escalate_session
    rw [hs]
    dsimp only
    rw [if_pos hcond]
  · intro s hs h0
    have hcond : ¬ ((!(s.escalation_status == EscStatus.none)) = true) := by simp [h0]
    have hq1 : querySession (updateSession db (pendSession s reason now)) sid tid =
        some (pendSession s reason now) :=
      querySession_updateSession (pendSession s reason now) hs rfl (querySession_props hs).2.2
    constructor
    · unfold escalate_session
      rw [hs]
      dsimp only
      rw [if_neg hcond]
      cases hstaff :
          find_available_staff (updateSession db (pendSession s reason now)) tid with
      | nil =>
        dsimp only
        rw [hq1]
        exact ⟨_, rfl, rfl⟩
      | cons best rest =>
        dsimp only
        rcases hr : assign_user (updateSession db (pendSession s reason now))
            sid tid best.user_id now with ⟨res, db2⟩
        cases res with
        | error e =>
          have hdb2 : db2 = updateSession db (pendSession s reason now) :=
            assign_user_error_db hr
          dsimp only
          rw [hdb2, hq1]
          exact ⟨_, rfl, rfl⟩
        | ok r =>
          obtain ⟨s1, u1, hqs1, hqu1, hrval, hdb2⟩ := assign_user_ok_post hr
          have hs1 : s1 = pendSession s reason now := by
            rw [hq1] at hqs1
            exact (Option.some.injEq _ _ ▸ hqs1).symm
          dsimp only
          rw [hdb2, querySession_updateUser,
            querySession_updateSession (assignedSession s1 best.user_id now) hq1
              (by subst hs1; rfl) (by subst hs1; exact (querySession_props hs).2.2)]
          exact ⟨_, rfl, by rw [hs1]; rfl⟩
    · intro hstaff
      unfold escalate_session
      rw [hs]
      dsimp only
      rw [if_neg hcond]
      rw [hstaff]
      dsimp only
      rw [hq1]
      rfl

/-- Witness for C7: escalating the fresh session 1 of the main fixture
succeeds and stamps the request timestamp. -/
theorem claim7_escalate_guards_witness :
    querySession dbMain 1 1 = some (mkSession 1 1 EscStatus.none Option.none) ∧
    (∃ ok : EscalateOk, (escalate_session dbMain 1 1 "w" false Option.none 3).1 = .ok ok ∧
      ok.escalation_requested_at = some 3) := by
  refine ⟨by decide, ?_⟩
  exact ((claim7_escalate_guards dbMain 1 1 3 "w" false Option.none).2.2
    (mkSession 1 1 EscStatus.none Option.none) (by decide) rfl).1

/-- Helper: membership in the staff directory result is exactly the
availability filter over the users table. -/
theorem mem_find_available_staff (db : DB) (tid : Nat) (u : User) :
    u ∈ find_available_staff db tid ↔
      (u ∈ db.users ∧ u.tenant_id = tid ∧ u.role = Role.supporter ∧
       (u.supporter_status = Availability.online ∨
        u.supporter_status = Availability.available) ∧
       u.current_sessions_count < u.max_concurrent_sessions) := by
  unfold find_available_staff
  rw [(List.mergeSort_perm _ _).mem_iff, List.mem_filter]
  unfold availableFilter
  simp only [Bool.and_eq_true, Bool.or_eq_true, beq_iff_eq, decide_eq_true_eq]
  tauto

/-- Helper: the staff directory result is sorted ascending by live load. -/
theorem find_available_staff_sorted (db : DB) (tid : Nat) :
    List.Sorted (fun a b : User => a.current_sessions_count ≤ b.current_sessions_count)
      (find_available_staff db tid) := by
  unfold find_available_staff
  have h := @List.sorted_mergeSort User
    (fun a b : User => decide (a.current_sessions_count ≤ b.current_sessions_count))
    (fun a b c hab hbc => by
      simp only [decide_eq_true_eq] at hab hbc ⊢
      omega)
    (fun a b => by
      simp only [Bool.or_eq_true, decide_eq_true_eq]
      omega)
    (db.users.filter (availableFilter tid))
  exact h.imp (fun hab => by simpa using hab)

/-- Helper: in a load-sorted nonempty list the head is least loaded. -/
theorem sorted_head_min {best : User} {rest : List User}
    (hs : List.Sorted (fun a b : User => a.current_sessions_count ≤ b.current_sessions_count)
      (best :: rest)) :
    ∀ v ∈ best :: rest, best.current_sessions_count ≤ v.current_sessions_count := by
  intro v hv
  rcases List.mem_cons.mp hv with rfl | hv'
  · exact le_refl _
  · exact (List.sorted_cons.mp hs).1 v hv'

/-- C9: `find_available_staff` returns exactly the tenant supporters that are
online or available and strictly below their ceiling, ordered ascending by
`current_sessions_count`; consequently its head is least loaded, and when
`escalate_session` auto-assigns it assigns precisely that least-loaded head. -/
theorem claim9_find_available_staff_spec (db : DB) (tid : Nat) :
    (∀ u, u ∈ find_available_staff db tid ↔
      (u ∈ db.users ∧ u.tenant_id = tid ∧ u.role = Role.supporter ∧
       (u.supporter_status = Availability.online ∨
        u.supporter_status = Availability.available) ∧
       u.current_sessions_count < u.max_concurrent_sessions)) ∧
    List.Sorted (fun a b : User => a.current_sessions_count ≤ b.current_sessions_count)
      (find_available_staff db tid) ∧
    (∀ best rest, find_available_staff db tid = best :: rest →
      ∀ v ∈ find_available_staff db tid,
        best.current_sessions_count ≤ v.current_sessions_count) ∧
    (∀ sid now reason ad kws s best rest (r : EscalateOk),
      querySession db sid tid = some s → s.escalation_status = EscStatus.none →
      find_available_staff (updateSession db (pendSession s reason now)) tid = best :: rest →
      (escalate_session db sid tid reason ad kws now).1 = .ok r →
      r.auto_assigned = true →
      (r.assigned_user_id = some best.user_id ∧
       ∀ v ∈ find_available_staff (updateSession db (pendSession s reason now)) tid,
         best.current_sessions_count ≤ v.current_sessions_count)) := by
  refine ⟨mem_find_available_staff db tid, find_available_staff_sorted db tid, ?_, ?_⟩
  · intro best rest hcons
    rw [hcons]
    exact sorted_head_min (hcons ▸ find_available_staff_sorted db tid)
  · intro sid now reason ad kws s best rest r hs h0 hstaff hok hauto
    have hmin : ∀ v ∈ find_available_staff (updateSession db (pendSession s reason now)) tid,
        best.current_sessions_count ≤ v.current_sessions_count := by
      rw [hstaff]
      exact sorted_head_min
        (hstaff ▸ find_available_staff_sorted (updateSession db (pendSession s reason now)) tid)
    refine ⟨?_, hmin⟩
    have hcond : ¬ ((!(s.escalation_status == EscStatus.none)) = true) := by simp [h0]
    unfold escalate_session at hok
    rw [hs] at hok
    dsimp only at hok
    rw [if_neg hcond, hstaff] at hok
    dsimp only at hok
    rcases hr : assign_user (updateSession db (pendSession s reason now))
        sid tid best.user_id now with ⟨res, db2⟩
    rw [hr] at hok
    dsimp only at hok
    cases res with
    | ok r1 =>
      have := Except.ok.inj hok
      rw [← this]
    | error e =>
      have := Except.ok.inj hok
      rw [← this] at hauto
      simp at hauto

/-- Witness for C9: the free supporter 10 of the main fixture is in the
directory result for tenant 1. -/
theorem claim9_find_available_staff_spec_witness :
    mkSupporter 10 1 Availability.online 2 0 ∈ find_available_staff dbMain 1 :=
  ((claim9_find_available_staff_spec dbMain 1).1
    (mkSupporter 10 1 Availability.online 2 0)).mpr (by decide)

/-- C10: the detector filters the default keywords extended with the custom
ones by case-insensitive substring match, escalates exactly when some keyword
matches, computes confidence as the match count over three capped at one (so
positive on escalation and never above one), and its reason carries the match
count plus at most the first three matched keywords; on the concrete message
of the claim it escalates with confidence in the unit interval and detects
both the urgent and the help keywords. -/
theorem claim10_detector_spec (message : String) (custom_keywords : Option (List String)) :
    (detect_auto_escalation message custom_keywords).detected_keywords =
      (DEFAULT_ESCALATION_KEYWORDS ++ custom_keywords.getD []).filter
        (fun k => kwMatches message k) ∧
    ((detect_auto_escalation message custom_keywords).should_escalate = true ↔
      ∃ k ∈ DEFAULT_ESCALATION_KEYWORDS ++ custom_keywords.getD [],
        kwMatches message k = true) ∧
    (detect_auto_escalation message custom_keywords).confidence =
      min (((detect_auto_escalation message custom_keywords).detected_keywords.length : ℚ) / 3)
        1 ∧
    ((detect_auto_escalation message custom_keywords).should_escalate = true →
      0 < (detect_auto_escalation message custom_keywords).confidence) ∧
    (detect_auto_escalation message custom_keywords).confidence ≤ 1 ∧
    (∀ n ks, (detect_auto_escalation message custom_keywords).reason = some (n, ks) →
      n = (detect_auto_escalation message custom_keywords).detected_keywords.length ∧
      ks = (detect_auto_escalation message custom_keywords).detected_keywords.take 3 ∧
      ks.length ≤ 3) ∧
    ((detect_auto_escalation message custom_keywords).should_escalate = false →
      (detect_auto_escalation message custom_keywords).reason = Option.none) ∧
    (detect_auto_escalation "this is urgent, please help" Option.none).should_escalate = true ∧
    0 < (detect_auto_escalation "this is urgent, please help" Option.none).confidence ∧
    (detect_auto_escalation "this is urgent, please help" Option.none).confidence ≤ 1 ∧
    "urgent" ∈
      (detect_auto_escalation "this is urgent, please help" Option.none).detected_keywords ∧
    "help" ∈
      (detect_auto_escalation "this is urgent, please help" Option.none).detected_keywords := by
  have hmem : ∀ (m : String) (ck : Option (List String)),
      ((detect_auto_escalation m ck).should_escalate = true ↔
        ∃ k ∈ DEFAULT_ESCALATION_KEYWORDS ++ ck.getD [], kwMatches m k = true) := by
    intro m ck
    unfold detect_auto_escalation
    dsimp only
    rw [decide_eq_true_iff, gt_iff_lt, List.length_pos_iff_exists_mem]
    constructor
    · rintro ⟨k, hk⟩
      rw [List.mem_filter] at hk
      exact ⟨k, hk.1, hk.2⟩
    · rintro ⟨k, hk1, hk2⟩
      exact ⟨k, List.mem_filter.mpr ⟨hk1, hk2⟩⟩
  have hposgen : ∀ (m : String) (ck : Option (List String)),
      (detect_auto_escalation m ck).should_escalate = true →
      0 < (detect_auto_escalation m ck).confidence := by
    intro m ck h
    unfold detect_auto_escalation at h ⊢
    dsimp only at h ⊢
    rw [decide_eq_true_iff, gt_iff_lt] at h
    refine lt_min (div_pos ?_ (by norm_num)) one_pos
    exact_mod_cast h
  have hlegen : ∀ (m : String) (ck : Option (List String)),
      (detect_auto_escalation m ck).confidence ≤ 1 := by
    intro m ck
    unfold detect_auto_escalation
    dsimp only
    exact min_le_right _ _
  refine ⟨rfl, hmem message custom_keywords, rfl, hposgen message custom_keywords,
    hlegen message custom_keywords, ?_, ?_,
    by decide, hposgen _ _ (by decide), hlegen _ _, by decide, by decide⟩
  · intro n ks hr
    unfold detect_auto_escalation at hr ⊢
    dsimp only at hr ⊢
    by_cases hl : 0 < ((DEFAULT_ESCALATION_KEYWORDS ++ custom_keywords.getD []).filter
        (fun k => kwMatches message k)).length
    · rw [if_pos (by simpa using hl)] at hr
      simp only [Option.some.injEq, Prod.mk.injEq] at hr
      obtain ⟨hn, hks⟩ := hr
      refine ⟨hn.symm, hks.symm, ?_⟩
      rw [← hks]
      exact List.length_take_le _ _
    · rw [if_neg (by simpa using hl)] at hr
      cases hr
  · intro h
    unfold detect_auto_escalation at h ⊢
    dsimp only at h ⊢
    rw [if_neg (of_decide_eq_false h)]

/-- Witness for C10: the concrete detection of the claim, with the positive
confidence obtained by applying the general theorem. -/
theorem claim10_detector_spec_witness :
    (detect_auto_escalation "this is urgent, please help" Option.none).should_escalate = true ∧
    0 < (detect_auto_escalation "this is urgent, please help" Option.none).confidence :=
  ⟨by decide,
   (claim10_detector_spec "this is urgent, please help" Option.none).2.2.2.1 (by decide)⟩

/-- Helper: sessions of other tenants survive the commit of an in-tenant
session row. -/
theorem other_tenant_sessions_updateSession {db : DB} {s' : ChatSession} {tid : Nat}
    (hten : s'.tenant_id = tid) :
    ∀ x ∈ (updateSession db s').sessions, x.tenant_id ≠ tid → x ∈ db.sessions := by
  intro x hx hne
  rcases mem_replaced ChatSession.session_id db.sessions s' x hx with rfl | hx'
  · exact absurd hten hne
  · exact hx'

/-- Helper: users of other tenants survive the commit of an in-tenant user
row. -/
theorem other_tenant_users_updateUser {db : DB} {u' : User} {tid : Nat}
    (hten : u'.tenant_id = tid) :
    ∀ x ∈ (updateUser db u').users, x.tenant_id ≠ tid → x ∈ db.users := by
  intro x hx hne
  rcases mem_replaced User.user_id db.users u' x hx with rfl | hx'
  · exact absurd hten hne
  · exact hx'

/-- Helper: `assign_user` reads and writes only rows of the tenant it is
called with (its queries all carry the tenant filter). -/
theorem assign_user_other_tenant (db : DB) (sid tid uid now : Nat) :
    (∀ x ∈ (assign_user db sid tid uid now).2.sessions, x.tenant_id ≠ tid → x ∈ db.sessions) ∧
    (∀ x ∈ (assign_user db sid tid uid now).2.users, x.tenant_id ≠ tid → x ∈ db.users) := by
  rcases hr : assign_user db sid tid uid now with ⟨res, db2⟩
  cases res with
  | error e =>
    rw [show (((Except.error e : Except AssignError AssignOk), db2)).2 = db2 from rfl,
      assign_user_error_db hr]
    exact ⟨fun x hx _ => hx, fun x hx _ => hx⟩
  | ok r =>
    obtain ⟨s, u, hs, hu, hrv, hdb2⟩ := assign_user_ok_post hr
    rw [show (((Except.ok r : Except AssignError AssignOk), db2)).2 = db2 from rfl, hdb2]
    constructor
    · intro x hx hne
      exact @other_tenant_sessions_updateSession db (assignedSession s uid now) tid
        (querySession_props hs).2.2 x hx hne
    · intro x hx hne
      exact @other_tenant_users_updateUser (updateSession db (assignedSession s uid now))
        { u with current_sessions_count := u.current_sessions_count + 1 } tid
        (queryStaff_props hu).2.2.1 x hx hne

/-- Helper: `resolve_escalation` never creates or mutates a session row of a
different tenant (its session query carries the tenant filter). -/
theorem resolve_other_tenant_sessions (db : DB) (sid tid : Nat) :
    ∀ x ∈ (resolve_escalation db sid tid).2.sessions, x.tenant_id ≠ tid → x ∈ db.sessions := by
  unfold resolve_escalation
  cases hq : querySession db sid tid with
  | none => exact fun x hx _ => hx
  | some s =>
    dsimp only
    by_cases hst : (s.escalation_status == EscStatus.none) = true
    · rw [if_pos hst]
      exact fun x hx _ => hx
    · rw [if_neg hst]
      cases hau : s.assigned_user_id with
      | none =>
        exact other_tenant_sessions_updateSession (querySession_props hq).2.2
      | some auid =>
        dsimp only
        cases hfu : db.users.find? (fun u => u.user_id == auid) with
        | none =>
          exact other_tenant_sessions_updateSession (querySession_props hq).2.2
        | some au =>
          dsimp only
          by_cases hpos : au.current_sessions_count > 0
          · rw [if_pos hpos]
            exact other_tenant_sessions_updateSession (querySession_props hq).2.2
          · rw [if_neg hpos]
            exact other_tenant_sessions_updateSession (querySession_props hq).2.2

/-- Helper: `escalate_session` reads and writes only rows of the tenant it is
called with, delegating user writes to `assign_user`. -/
theorem escalate_other_tenant (db : DB) (sid tid now : Nat) (reason : String)
    (ad : Bool) (kws : Option (List String)) :
    (∀ x ∈ (escalate_session db sid tid reason ad kws now).2.sessions,
       x.tenant_id ≠ tid → x ∈ db.sessions) ∧
    (∀ x ∈ (escalate_session db sid tid reason ad kws now).2.users,
       x.tenant_id ≠ tid → x ∈ db.users) := by
  unfold escalate_session
  cases hq : querySession db sid tid with
  | none => exact ⟨fun x hx _ => hx, fun x hx _ => hx⟩
  | some s =>
    dsimp only
    by_cases hst : (!(s.escalation_status == EscStatus.none)) = true
    · rw [if_pos hst]
      exact ⟨fun x hx _ => hx, fun x hx _ => hx⟩
    · rw [if_neg hst]
      have hpend : (pendSession s reason now).tenant_id = tid := (querySession_props hq).2.2
      cases hstaff :
          find_available_staff (updateSession db (pendSession s reason now)) tid with
      | nil =>
        dsimp only
        exact ⟨other_tenant_sessions_updateSession hpend, fun x hx _ => hx⟩
      | cons best rest =>
        dsimp only
        rcases hr : assign_user (updateSession db (pendSession s reason now))
            sid tid best.user_id now with ⟨res, db2⟩
        have hat := assign_user_other_tenant
          (updateSession db (pendSession s reason now)) sid tid best.user_id now
        rw [hr] at hat
        cases res with
        | ok r =>
          dsimp only
          exact ⟨fun x hx hne =>
              other_tenant_sessions_updateSession hpend x (hat.1 x hx hne) hne,
            fun x hx hne => hat.2 x hx hne⟩
        | error e =>
          dsimp only
          exact ⟨fun x hx hne =>
              other_tenant_sessions_updateSession hpend x (hat.1 x hx hne) hne,
            fun x hx hne => hat.2 x hx hne⟩

/-- C6 (amended): every query of `escalate_session`, `assign_user` and
`find_available_staff` is tenant-scoped — the directory returns only rows of
the requested tenant, and neither operation ever mutates a session or user
row of a different tenant — and the session query of `resolve_escalation` is
tenant-scoped as well; only the staff lookup inside `resolve_escalation`
filters by user id alone, which is why its user writes are excluded here (see
the counterexample). -/
theorem claim6_amended_tenant_scoping (db : DB) (sid tid uid now : Nat) (reason : String)
    (ad : Bool) (kws : Option (List String)) :
    (∀ u ∈ find_available_staff db tid, u.tenant_id = tid) ∧
    (∀ x ∈ (assign_user db sid tid uid now).2.sessions,
       x.tenant_id ≠ tid → x ∈ db.sessions) ∧
    (∀ x ∈ (assign_user db sid tid uid now).2.users,
       x.tenant_id ≠ tid → x ∈ db.users) ∧
    (∀ x ∈ (resolve_escalation db sid tid).2.sessions,
       x.tenant_id ≠ tid → x ∈ db.sessions) ∧
    (∀ x ∈ (escalate_session db sid tid reason ad kws now).2.sessions,
       x.tenant_id ≠ tid → x ∈ db.sessions) ∧
    (∀ x ∈ (escalate_session db sid tid reason ad kws now).2.users,
       x.tenant_id ≠ tid → x ∈ db.users) :=
  ⟨fun u hu => ((mem_find_available_staff db tid u).mp hu).2.1,
   (assign_user_other_tenant db sid tid uid now).1,
   (assign_user_other_tenant db sid tid uid now).2,
   resolve_other_tenant_sessions db sid tid,
   (escalate_other_tenant db sid tid now reason ad kws).1,
   (escalate_other_tenant db sid tid now reason ad kws).2⟩

/-- Witness for C6 (amended): after assigning the tenant-1 session of the
two-tenant fixture, the tenant-2 session row is still the original one. -/
theorem claim6_amended_tenant_scoping_witness :
    mkSession 9 2 EscStatus.pending Option.none ∈ (assign_user dbScope 1 1 10 5).2.sessions ∧
    (mkSession 9 2 EscStatus.pending Option.none).tenant_id ≠ 1 ∧
    mkSession 9 2 EscStatus.pending Option.none ∈ dbScope.sessions :=
  ⟨by decide, by decide,
   (claim6_amended_tenant_scoping dbScope 1 1 10 5 "w" false Option.none).2.1
     (mkSession 9 2 EscStatus.pending Option.none) (by decide) (by decide)⟩

end Escalation
